import Mathlib

/-!
Verification of the haven-platform node agent
(cluster-manager/src/main/resources/static/res/agent/node-agent.py).

The Python program is shallowly embedded: every stateful operation is a pure
function from its explicit inputs (current state, wall-clock readings, the
behaviour of the network peer) to its explicit outputs (next state, value
returned, requests issued, exception raised).  Python exceptions are an
inductive type and fallible code returns Except.  Times are naturals
(seconds); the numeric payload fields that Python stores as floats carry
exact values here (Rat), since the program never does arithmetic on them
beyond copying.
-/

/-- Kinds of transport-level failures raised by the http machinery.
brokenPipe stands for BrokenPipeError (connection forcibly closed by the
peer); other stands for any other OSError-style failure. -/
inductive TransErr where
  | brokenPipe
  | other (msg : String)
deriving DecidableEq, Repr

/-- The Python exceptions that the agent code can raise: transport failures
from the http connection, the two Exception values raised explicitly by
do_register for bad statuses, and the builtin KeyError / ValueError /
IndexError raised by dictionary lookup, dict construction from a list of
split results, and list indexing. -/
inductive Exc where
  | transport (e : TransErr)
  | unauthorized (host port path body : String)
  | invalidResponse (status : Nat) (reason host port path body : String)
  | keyError (key : String)
  | valueError
  | indexError
deriving DecidableEq, Repr

/-- Python str.split with a one-character separator, on the character list
of the string.  Like Python, the result is never empty and keeps empty
segments: splitting the empty string yields one empty segment. -/
def split_char (sep : Char) : List Char → List (List Char)
  | [] => [[]]
  | c :: cs =>
    let rest := split_char sep cs
    if c = sep then [] :: rest
    else
      match rest with
      | [] => [[c]]
      | r :: rs => (c :: r) :: rs

/-- Python str.split with a one-character separator, on strings. -/
def py_split (sep : Char) (s : String) : List String :=
  (split_char sep s.data).map (fun l => String.mk l)

/-- The state of one CachedValue instance: the private fields data and
load_time (both initially None) and the configured time_after_write. -/
structure CachedValue (α : Type) where
  data : Option α
  load_time : Option Nat
  taw : Nat
deriving DecidableEq, Repr

/-- CachedValue.get.  Inputs beyond the state: the Python truthiness test
for the cached type (Python evaluates not self.data), the loader, and the
two readings of time.time() the method makes (t at entry, t_load right
after the loader returns).  Output: next state, value returned, and
whether the loader was invoked.  The condition mirrors the source line
if not self.data or self.load_time + self.taw >= t with its
short-circuit: load_time is only read when data is truthy, and in every
reachable such state load_time is set, so the getD 0 default is never
exercised. -/
def CachedValue.get (c : CachedValue α) (falsy : α → Bool) (loader : Unit → α)
    (t t_load : Nat) : CachedValue α × α × Bool :=
  match c.data with
  | none =>
    let v := loader ()
    (⟨some v, some t_load, c.taw⟩, v, true)
  | some v0 =>
    if falsy v0 || decide (c.load_time.getD 0 + c.taw ≥ t) then
      let v := loader ()
      (⟨some v, some t_load, c.taw⟩, v, true)
    else
      (c, v0, false)

/-- One container object from GET /containers/json, with the fields
process_container reads.  Labels is a json object, kept as the list of its
entries. -/
structure Container where
  Id : String
  Names : List String
  Image : String
  Labels : List (String × String)
deriving DecidableEq, Repr

/-- The dictionary process_container builds for one container. -/
structure WorkloadRecord where
  id : String
  name : String
  image : String
  labels : List (String × String)
deriving DecidableEq, Repr

/-- DockerMaster.process_container.  Reads element 0 of Names (IndexError
when the list is empty, as in Python), splits it on the slash and takes
element len - 1, which for the never-empty split result is its last
segment. -/
def process_container (c : Container) : Except Exc WorkloadRecord :=
  match c.Names with
  | [] => Except.error Exc.indexError
  | n0 :: _ =>
    let name_src := py_split '/' n0
    let name := name_src.getD (name_src.length - 1) ""
    Except.ok { id := c.Id, name := name, image := c.Image, labels := c.Labels }

/-- The fields of the GET /info object that DockerMaster.update reads.
Labels is the value of the key Labels when that key is present; none means
the key is absent, so reading it raises KeyError.  A present-but-null or
present-but-empty Labels is modelled as some of the empty list: both are
falsy in Python and take the same branch of the code. -/
structure Info where
  Name : String
  ID : String
  Labels : Option (List String)
deriving DecidableEq, Repr

/-- Memory fields of a SystemStatus, bytes. -/
structure MemStats where
  total : Rat
  available : Rat
  used : Rat
deriving DecidableEq, Repr

/-- Per-mount disk usage, bytes. -/
structure DiskStat where
  total : Rat
  used : Rat
deriving DecidableEq, Repr

/-- Per-interface network counters, bytes. -/
structure NetStat where
  bytesOut : Rat
  bytesIn : Rat
deriving DecidableEq, Repr

/-- The status dictionary built by DockerMaster.get_status.  The two maps
keep json-object insertion order as association lists. -/
structure SystemStatus where
  cpuLoad : Rat
  memory : MemStats
  disks : List (String × DiskStat)
  net : List (String × NetStat)
deriving DecidableEq, Repr

/-- The data the psutil module would report when it is importable:
cpu_percent, virtual_memory, disk_usage per disk_partitions mountpoint,
and net_io_counters per nic (loopback included; get_status filters it). -/
structure Psutil where
  cpu_percent : Rat
  virtual_memory : MemStats
  disk_partitions : List (String × DiskStat)
  net_io_counters : List (String × NetStat)
deriving DecidableEq, Repr

/-- DockerMaster.get_status.  The argument is none when import psutil
fails, in which case the initial status dictionary is returned as built:
zero cpu and memory, placeholder zero entries for the / and /home mounts,
and an empty net map.  When psutil is available every field is overwritten
from it, with the lo interface skipped. -/
def get_status (psutil : Option Psutil) : SystemStatus :=
  let status : SystemStatus :=
    { cpuLoad := 0,
      memory := { total := 0, available := 0, used := 0 },
      disks := [("/", { total := 0, used := 0 }), ("/home", { total := 0, used := 0 })],
      net := [] }
  match psutil with
  | none => status
  | some p =>
    { status with
      cpuLoad := p.cpu_percent,
      memory := p.virtual_memory,
      disks := p.disk_partitions,
      net := p.net_io_counters.filter (fun x => x.1 ≠ "lo") }

/-- One entry of the labels dictionary: a.split of one "key=value" string,
which dict() accepts only when the split has exactly two parts
(ValueError otherwise, as when the string has zero or two equals signs). -/
def split_label (s : String) : Except Exc (String × String) :=
  match py_split '=' s with
  | [k, v] => Except.ok (k, v)
  | _ => Except.error Exc.valueError

/-- The labels value of the payload: dict(map(lambda a: a.split(eq),
labels_arr)) if labels_arr else the empty dict.  The dict is kept as the
list of pairs in construction order. -/
def parse_labels (labels_arr : List String) : Except Exc (List (String × String)) :=
  if labels_arr.isEmpty then Except.ok []
  else labels_arr.mapM split_label

/-- The registration payload dictionary assembled by DockerMaster.update. -/
structure Payload where
  time : String
  id : String
  name : String
  address : String
  containers : List WorkloadRecord
  labels : List (String × String)
  system : SystemStatus
deriving DecidableEq, Repr

/-- The payload-assembly part of DockerMaster.update, in source order:
labels_arr = info of Labels (KeyError when absent), then the data
dictionary, whose containers value forces docker.containers() (the contRes
argument, an error when that call raised) and maps process_container over
it, and whose labels value splits each labels_arr entry.  now is the
datetime.now().isoformat() reading; dh and dp are the docker client host
and port used for the address field. -/
def assemblePayload (dh dp : String) (info : Info)
    (contRes : Except Exc (List Container)) (psutil : Option Psutil)
    (now : String) : Except Exc Payload :=
  match info.Labels with
  | none => Except.error (Exc.keyError "Labels")
  | some labels_arr =>
    match contRes with
    | Except.error e => Except.error e
    | Except.ok cs =>
      match cs.mapM process_container with
      | Except.error e => Except.error e
      | Except.ok containers =>
        match parse_labels labels_arr with
        | Except.error e => Except.error e
        | Except.ok labels =>
          Except.ok
            { time := now, id := info.Name, name := info.Name,
              address := dh ++ ":" ++ dp, containers := containers,
              labels := labels, system := get_status psutil }

/-- The configuration a DockerMaster instance holds: its own host and port,
the timeout (the ttl it advertises), the optional secret, and the host and
port of the Docker client used for the payload address field. -/
structure MasterCfg where
  host : String
  port : String
  timeout : Nat
  secret : Option String
  docker_host : String
  docker_port : String
deriving DecidableEq, Repr

/-- The header dictionary do_register builds: Content-Type always, then
X-Auth-Node exactly when a secret is configured. -/
def mkHeaders (secret : Option String) : List (String × String) :=
  match secret with
  | none => [("Content-Type", "application/json")]
  | some s => [("Content-Type", "application/json"), ("X-Auth-Node", s)]

/-- One http request as handed to conn.request: method, url path (query
string included), headers, and the serialized payload as body (the json
encoding is kept abstract: the body is the payload itself). -/
structure Request where
  method : String
  path : String
  headers : List (String × String)
  body : Payload
deriving DecidableEq, Repr

/-- What the environment does on one do_register attempt: conn.request
raises a transport error, getresponse or read raises a transport error, or
a full response with status, reason and body is delivered. -/
inductive AttemptEv where
  | requestFail (e : TransErr)
  | respFail (e : TransErr)
  | respond (status : Nat) (reason : String) (body : String)
deriving DecidableEq, Repr

/-- The status check of do_register: statuses other than http.client.OK
(200) raise, with http.client.UNAUTHORIZED (401) mapped to the
authorization Exception naming the endpoint and the secret requirement,
and every other non-200 status mapped to the invalid-response Exception
carrying status, reason, endpoint and body. -/
def classify (status : Nat) (reason rd : String) (host port path : String) :
    Except Exc Unit :=
  if status ≠ 200 then
    if status = 401 then Except.error (Exc.unauthorized host port path rd)
    else Except.error (Exc.invalidResponse status reason host port path rd)
  else Except.ok ()

/-- DockerMaster.open: a no-op when the connection is already open,
otherwise construct a new HTTPConnection, leaving the connection open
either way. -/
def master_open (conn : Bool) : Bool :=
  if conn then conn else true

/-- One call of the nested function do_register.  self.open() first makes
the connection open whatever state it was in, so the outcome does not
depend on the conn argument; the request is then issued with method POST,
the registration path, the header dictionary and the serialized payload.
Output: the connection state after the call (self.conn is closed and set
to None before any exception is re-raised, and left open on success), the
request handed to conn.request, and the exception raised if any. -/
def do_register (cfg : MasterCfg) (path : String) (payload : Payload)
    (conn : Bool) (ev : AttemptEv) : Bool × Request × Option Exc :=
  let conn1 := master_open conn
  let req : Request :=
    { method := "POST", path := path, headers := mkHeaders cfg.secret, body := payload }
  match ev with
  | AttemptEv.requestFail e => (false, req, some (Exc.transport e))
  | AttemptEv.respFail e => (false, req, some (Exc.transport e))
  | AttemptEv.respond st reason rd =>
    match classify st reason rd cfg.host cfg.port path with
    | Except.ok _ => (conn1, req, none)
    | Except.error ex => (false, req, some ex)

/-- The guard of the retry branch, e is BrokenPipeError.  Python is
compares object identity: e is the caught exception instance and
BrokenPipeError is a class object, so the comparison is False for every
exception that reaches the handler, whatever its type. -/
def exc_is_BrokenPipeError (_e : Exc) : Bool := false

/-- The while tries loop of DockerMaster.update.  Arguments after the
oracle: remaining tries, the attempt index fed to the oracle, the
connection state, and accumulators for the requests issued and the number
of do_register calls made.  Output: final connection state, requests
issued, number of attempts, and whether the inner except handler logged a
failure.  On success the loop breaks without logging; on an exception it
retries immediately when the guard holds and otherwise logs and breaks. -/
def retryLoop (cfg : MasterCfg) (path : String) (payload : Payload)
    (oracle : Nat → AttemptEv) :
    Nat → Nat → Bool → List Request → Nat → Bool × List Request × Nat × Bool
  | 0, _, conn, reqs, n => (conn, reqs, n, false)
  | Nat.succ tries, i, conn, reqs, n =>
    let z := do_register cfg path payload conn (oracle i)
    match z.2.2 with
    | none => (z.1, reqs ++ [z.2.1], n + 1, false)
    | some e =>
      if exc_is_BrokenPipeError e then
        retryLoop cfg path payload oracle tries (i + 1) z.1 (reqs ++ [z.2.1]) (n + 1)
      else (z.1, reqs ++ [z.2.1], n + 1, true)

/-- The body of DockerMaster.update inside its outer try: fetch info
(infoRes is what docker.info() returns or raises), derive name, id and the
registration path with its ttl query parameter, assemble and serialize the
payload, then run the retry loop with tries = 3 from the current
connection state.  Any exception escaping these steps is the error
value. -/
def run_cycle (cfg : MasterCfg) (conn0 : Bool) (infoRes : Except Exc Info)
    (contRes : Except Exc (List Container)) (psutil : Option Psutil)
    (now : String) (oracle : Nat → AttemptEv) :
    Except Exc (Bool × List Request × Nat × Bool) :=
  match infoRes with
  | Except.error e => Except.error e
  | Except.ok info =>
    let name := info.Name
    let id := name
    let path := "/discovery/nodes/" ++ id ++ "?ttl=" ++ toString cfg.timeout
    match assemblePayload cfg.docker_host cfg.docker_port info contRes psutil now with
    | Except.error e => Except.error e
    | Except.ok payload => Except.ok (retryLoop cfg path payload oracle 3 0 conn0 [] 0)

/-- The observable outcome of one DockerMaster.update call: connection
state afterwards, requests issued to the manager, number of do_register
attempts, whether any failure was logged (by the inner handler of the
retry loop or the outer except of update), and the exception escaping
update, if any. -/
structure UpdateResult where
  conn : Bool
  requests : List Request
  attempts : Nat
  logged : Bool
  raised : Option Exc
deriving DecidableEq, Repr

/-- DockerMaster.update: run the cycle body and catch every Exception at
the boundary, logging it.  An exception before any send attempt leaves the
connection as it was and no request issued. -/
def update (cfg : MasterCfg) (conn0 : Bool) (infoRes : Except Exc Info)
    (contRes : Except Exc (List Container)) (psutil : Option Psutil)
    (now : String) (oracle : Nat → AttemptEv) : UpdateResult :=
  match run_cycle cfg conn0 infoRes contRes psutil now oracle with
  | Except.ok (conn, reqs, n, logged) =>
    { conn := conn, requests := reqs, attempts := n, logged := logged, raised := none }
  | Except.error _ =>
    { conn := conn0, requests := [], attempts := 0, logged := true, raised := none }

/-- A concrete DockerMaster configuration for concrete runs, with the
sample-config addresses, ttl 20 and a secret. -/
def cfg0 : MasterCfg :=
  { host := "172.31.0.3", port := "8762", timeout := 20, secret := some "secr3t",
    docker_host := "172.31.0.12", docker_port := "2375" }

/-- A concrete info object whose Labels key is present and empty. -/
def info0 : Info := { Name := "node1", ID := "00:11", Labels := some [] }

/-- The request the cfg0 and info0 run issues: used as the concrete
instance at which general statements about issued requests are checked. -/
def req0 : Request :=
  { method := "POST", path := "/discovery/nodes/node1?ttl=20",
    headers := mkHeaders (some "secr3t"),
    body := { time := "t0", id := "node1", name := "node1",
              address := "172.31.0.12:2375", containers := [], labels := [],
              system := get_status none } }

example :
    (update cfg0 true (Except.ok info0) (Except.ok []) none "t0"
      (fun _ => AttemptEv.respond 200 "OK" "")).attempts = 1 := by decide
example :
    (update cfg0 true (Except.ok info0) (Except.ok []) none "t0"
      (fun _ => AttemptEv.respond 200 "OK" "")).logged = false := by decide
example :
    (update cfg0 true (Except.ok info0) (Except.ok []) none "t0"
      (fun _ => AttemptEv.respond 200 "OK" "")).requests.map Request.path =
      ["/discovery/nodes/node1?ttl=20"] := by decide
example :
    (update cfg0 true (Except.ok info0) (Except.ok []) none "t0"
      (fun _ => AttemptEv.requestFail TransErr.brokenPipe)).attempts = 1 := by decide
example :
    (update cfg0 true (Except.ok info0) (Except.ok []) none "t0"
      (fun _ => AttemptEv.requestFail TransErr.brokenPipe)).logged = true := by decide

example : py_split '/' "/hostA/myApp" = ["", "hostA", "myApp"] := by decide
example : py_split '/' "/myApp" = ["", "myApp"] := by decide
example : py_split '=' "env=prod" = ["env", "prod"] := by decide
example :
    process_container { Id := "c1", Names := ["/n1/app"], Image := "img:1", Labels := [] } =
      Except.ok { id := "c1", name := "app", image := "img:1", labels := [] } := rfl

/-- The retry loop with tries left always performs exactly one attempt:
on success it breaks, and on failure the retry guard compares an instance
against a class and is constantly false, so the handler logs and breaks. -/
theorem retryLoop_succ_eq (cfg : MasterCfg) (path : String) (payload : Payload)
    (oracle : Nat → AttemptEv) (tr i : Nat) (conn : Bool)
    (reqs : List Request) (n : Nat) :
    retryLoop cfg path payload oracle (Nat.succ tr) i conn reqs n =
      ((do_register cfg path payload conn (oracle i)).1,
       reqs ++ [(do_register cfg path payload conn (oracle i)).2.1],
       n + 1,
       ((do_register cfg path payload conn (oracle i)).2.2).isSome) := by
  cases h : (do_register cfg path payload conn (oracle i)).2.2 with
  | none => simp [retryLoop, h]
  | some e => simp [retryLoop, h, exc_is_BrokenPipeError]

/-- Every attempt issues the same request: POST, the registration path,
the header dictionary, the serialized payload. -/
theorem do_register_req_eq (cfg : MasterCfg) (path : String) (payload : Payload)
    (conn : Bool) (ev : AttemptEv) :
    (do_register cfg path payload conn ev).2.1 =
      { method := "POST", path := path, headers := mkHeaders cfg.secret,
        body := payload } := by
  cases ev with
  | requestFail e => rfl
  | respFail e => rfl
  | respond st reason rd =>
    simp only [do_register]
    cases h : classify st reason rd cfg.host cfg.port path <;> simp [h]

/-- An attempt raises no exception exactly when the environment delivered
a response with status 200. -/
theorem do_register_ok_iff (cfg : MasterCfg) (path : String) (payload : Payload)
    (conn : Bool) (ev : AttemptEv) :
    (do_register cfg path payload conn ev).2.2 = none ↔
      ∃ reason rd, ev = AttemptEv.respond 200 reason rd := by
  cases ev with
  | requestFail e => simp [do_register]
  | respFail e => simp [do_register]
  | respond st reason rd =>
    by_cases hst : st = 200
    · subst hst
      simp [do_register, classify]
    · simp only [do_register, classify, if_neg, hst]
      by_cases h401 : st = 401 <;> simp [h401, hst]

/-- The result of split_char is never the empty list, so element
length - 1 exists and is the last segment. -/
theorem split_char_ne_nil (sep : Char) (l : List Char) : split_char sep l ≠ [] := by
  cases l with
  | nil => simp [split_char]
  | cons c cs =>
    simp only [split_char]
    split
    · simp
    · cases h : split_char sep cs <;> simp

/-- py_split never returns the empty list. -/
theorem py_split_ne_nil (sep : Char) (s : String) : py_split sep s ≠ [] := by
  simp only [py_split, ne_eq, List.map_eq_nil_iff]
  exact split_char_ne_nil sep s.data

/-- For a nonempty list, the element at index length - 1 is the last
element. -/
theorem getD_length_sub_one {α : Type} (l : List α) (hl : l ≠ []) (d : α) :
    l.getLast? = some (l.getD (l.length - 1) d) := by
  induction l with
  | nil => exact absurd rfl hl
  | cons a t ih =>
    cases t with
    | nil => rfl
    | cons b u =>
      have h2 : (b :: u : List α) ≠ [] := by simp
      rw [List.getLast?_cons_cons, ih h2]
      simp [List.getD]

/-- Claim C1: the spec states that a value loaded less than the window W
seconds ago is served from cache without invoking the loader, and that a
value older than W triggers a reload.  The code inverts the comparison
(it reloads while load_time + taw is at least the current time, that is
while the value is still fresh, and serves the stored value once the
window has passed).  At the failing input, a cache with window 600 holding
the truthy value 1 loaded at time 0: get at time 10 invokes the loader
again, and get at time 700 serves the stale stored value without invoking
the loader, both contrary to the claim. -/
theorem c1_cache_polarity_bug :
    ((CachedValue.get ⟨none, none, 600⟩ (fun n => n == 0) (fun _ => (1 : Nat)) 0 0).2.2
        = true) ∧
    ((CachedValue.get ⟨some 1, some 0, 600⟩ (fun n => n == 0) (fun _ => (1 : Nat)) 10 10).2.2
        = true) ∧
    ((CachedValue.get ⟨some 1, some 0, 600⟩ (fun n => n == 0) (fun _ => (1 : Nat)) 700 700).2.2
        = false) ∧
    ((CachedValue.get ⟨some 1, some 0, 600⟩ (fun n => n == 0) (fun _ => (1 : Nat)) 700 700).2.1
        = 1) := by decide

/-- Claim C2: the spec states that when every attempt fails with a
transport reset, update performs the send protocol exactly 3 times and
then returns without raising.  The retry guard compares the caught
exception instance to the BrokenPipeError class with the identity
operator, which is never true, so at the failing input (every attempt
fails with a broken pipe) update performs exactly one attempt, logs, and
returns. -/
theorem c2_retry_guard_bug :
    (update cfg0 true (Except.ok info0) (Except.ok []) none "t0"
        (fun _ => AttemptEv.requestFail TransErr.brokenPipe)).attempts = 1 ∧
    (update cfg0 true (Except.ok info0) (Except.ok []) none "t0"
        (fun _ => AttemptEv.requestFail TransErr.brokenPipe)).logged = true ∧
    (update cfg0 true (Except.ok info0) (Except.ok []) none "t0"
        (fun _ => AttemptEv.requestFail TransErr.brokenPipe)).raised = none := by
  decide

/-- Claim C8: for every workload record, the extracted name is the last
slash-separated segment of the first Names entry; in particular the path
/hostA/myApp yields myApp and the parentless /myApp also yields myApp. -/
theorem c8_name_extraction :
    ∀ (c : Container) (n0 : String) (rest : List String), c.Names = n0 :: rest →
      (∃ r, process_container c = Except.ok r ∧
        (py_split '/' n0).getLast? = some r.name) ∧
      (n0 = "/hostA/myApp" →
        ∃ r, process_container c = Except.ok r ∧ r.name = "myApp") ∧
      (n0 = "/myApp" →
        ∃ r, process_container c = Except.ok r ∧ r.name = "myApp") := by
  intro c n0 rest h
  obtain ⟨cid, names, img, lb⟩ := c
  simp only at h
  subst h
  refine ⟨⟨_, rfl, ?_⟩, ?_, ?_⟩
  · exact getD_length_sub_one _ (py_split_ne_nil '/' n0) ""
  · intro h1; subst h1; exact ⟨_, rfl, rfl⟩
  · intro h1; subst h1; exact ⟨_, rfl, rfl⟩

/-- Witness for C8 at the two concrete paths of the claim. -/
theorem c8_name_extraction_witness :
    (∃ r, process_container
        { Id := "c1", Names := ["/hostA/myApp"], Image := "img:1", Labels := [] } =
        Except.ok r ∧ r.name = "myApp") ∧
    (∃ r, process_container
        { Id := "c2", Names := ["/myApp"], Image := "img:2", Labels := [] } =
        Except.ok r ∧ r.name = "myApp") :=
  ⟨(c8_name_extraction
      { Id := "c1", Names := ["/hostA/myApp"], Image := "img:1", Labels := [] }
      "/hostA/myApp" [] rfl).2.1 rfl,
   (c8_name_extraction
      { Id := "c2", Names := ["/myApp"], Image := "img:2", Labels := [] }
      "/myApp" [] rfl).2.2 rfl⟩

/-- Claim C9: when an attempt of the send protocol raises, the manager
connection is closed and discarded before the exception propagates; a
successful attempt leaves it open; and because the attempt begins with
open(), an attempt starting from the closed state behaves exactly as one
starting from the open state, re-opening the connection. -/
theorem c9_connection_state :
    ∀ (cfg : MasterCfg) (path : String) (payload : Payload) (conn : Bool)
      (ev : AttemptEv),
      (∀ e, (do_register cfg path payload conn ev).2.2 = some e →
        (do_register cfg path payload conn ev).1 = false) ∧
      ((do_register cfg path payload conn ev).2.2 = none →
        (do_register cfg path payload conn ev).1 = true) ∧
      do_register cfg path payload false ev = do_register cfg path payload true ev := by
  intro cfg path payload conn ev
  cases ev with
  | requestFail e => simp [do_register]
  | respFail e => simp [do_register]
  | respond st reason rd =>
    simp only [do_register, master_open]
    cases h : classify st reason rd cfg.host cfg.port path with
    | error ex => simp [h]
    | ok u => cases conn <;> simp [h]

/-- Witness for C9: a successful concrete attempt leaves the connection
open, by the theorem. -/
theorem c9_connection_state_witness :
    (do_register cfg0 "/discovery/nodes/node1?ttl=20"
      { time := "t0", id := "node1", name := "node1", address := "172.31.0.12:2375",
        containers := [], labels := [], system := get_status none }
      true (AttemptEv.respond 200 "OK" "")).1 = true :=
  (c9_connection_state cfg0 "/discovery/nodes/node1?ttl=20"
    { time := "t0", id := "node1", name := "node1", address := "172.31.0.12:2375",
      containers := [], labels := [], system := get_status none }
    true (AttemptEv.respond 200 "OK" "")).2.1 (by decide)

/-- Claim C10: once a get has stored a falsy loader result (for example an
empty list), the next get invokes the loader again whatever the current
time and window, because the condition not self.data is already true:
falsy results are never served from cache. -/
theorem c10_falsy_never_cached :
    ∀ (α : Type) (falsy : α → Bool) (loader loader2 : Unit → α)
      (c : CachedValue α) (t1 t2 t3 t4 : Nat),
      falsy (loader ()) = true →
      (CachedValue.get c falsy loader t1 t2).2.2 = true →
      (CachedValue.get (CachedValue.get c falsy loader t1 t2).1 falsy loader2 t3 t4).2.2
        = true := by
  intro α falsy loader loader2 c t1 t2 t3 t4 hf hinv
  cases hd : c.data with
  | none => simp [CachedValue.get, hd, hf]
  | some v0 =>
    simp only [CachedValue.get, hd] at hinv ⊢
    by_cases hcond : (falsy v0 || decide (c.load_time.getD 0 + c.taw ≥ t1)) = true
    · simp [hcond, hf]
    · simp [hcond] at hinv

/-- Witness for C10: a cache that has just stored an empty list reloads on
the very next get, 5 seconds later, despite a 600 second window. -/
theorem c10_falsy_never_cached_witness :
    (CachedValue.get
      (CachedValue.get (⟨none, none, 600⟩ : CachedValue (List Nat))
        (fun l => l.isEmpty) (fun _ => []) 0 0).1
      (fun l => l.isEmpty) (fun _ => []) 5 5).2.2 = true :=
  c10_falsy_never_cached (List Nat) (fun l => l.isEmpty) (fun _ => []) (fun _ => [])
    ⟨none, none, 600⟩ 0 0 5 5 (by decide) (by decide)

/-- Counterexample for C5: the claim says any 2xx status is a success, but
the code compares against http.client.OK only, so the 2xx status 201 is
classified as an invalid-response error. -/
theorem c5_two_xx_counterexample :
    classify 201 "Created" "" "172.31.0.3" "8762" "/discovery/nodes/node1?ttl=20" =
      Except.error (Exc.invalidResponse 201 "Created" "172.31.0.3" "8762"
        "/discovery/nodes/node1?ttl=20" "") := rfl

/-- Claim C5 as amended: exactly status 200 is a success; 401 is the
authorization error naming the endpoint; every other status is the
invalid-response error carrying status, reason, endpoint and body. -/
theorem c5_status_classification :
    ∀ (st : Nat) (reason rd host port path : String),
      (st = 200 → classify st reason rd host port path = Except.ok ()) ∧
      (st = 401 → classify st reason rd host port path =
        Except.error (Exc.unauthorized host port path rd)) ∧
      (st ≠ 200 → st ≠ 401 → classify st reason rd host port path =
        Except.error (Exc.invalidResponse st reason host port path rd)) := by
  intro st reason rd host port path
  refine ⟨?_, ?_, ?_⟩
  · intro h; subst h; rfl
  · intro h; subst h; rfl
  · intro h200 h401; simp [classify, h200, h401]

/-- Witness for C5 at statuses 200, 401 and 503. -/
theorem c5_status_classification_witness :
    classify 200 "OK" "" "h" "p" "/d" = Except.ok () ∧
    classify 401 "Unauthorized" "b" "h" "p" "/d" =
      Except.error (Exc.unauthorized "h" "p" "/d" "b") ∧
    classify 503 "Unavailable" "b" "h" "p" "/d" =
      Except.error (Exc.invalidResponse 503 "Unavailable" "h" "p" "/d" "b") :=
  ⟨(c5_status_classification 200 "OK" "" "h" "p" "/d").1 rfl,
   (c5_status_classification 401 "Unauthorized" "b" "h" "p" "/d").2.1 rfl,
   (c5_status_classification 503 "Unavailable" "b" "h" "p" "/d").2.2
     (by decide) (by decide)⟩

/-- Counterexample for C6: the claim says the disks mapping is empty when
the metrics facility cannot be loaded, but the initial status dictionary
carries placeholder entries for the / and /home mountpoints, so the disks
mapping returned has two entries. -/
theorem c6_disks_counterexample :
    (get_status none).disks.map Prod.fst = ["/", "/home"] ∧
    (get_status none).disks ≠ [] := by decide

/-- Claim C6 as amended: when psutil cannot be loaded, the collector
returns without raising a status whose cpu and memory fields are all
zero, whose net mapping is empty, and whose disks mapping holds zeroed
placeholder entries for / and /home; payload transmission still proceeds,
carrying exactly this status in the body of the one request issued. -/
theorem c6_default_status :
    get_status none =
      { cpuLoad := 0, memory := { total := 0, available := 0, used := 0 },
        disks := [("/", { total := 0, used := 0 }), ("/home", { total := 0, used := 0 })],
        net := [] } ∧
    (update cfg0 true (Except.ok info0) (Except.ok []) none "t0"
        (fun _ => AttemptEv.respond 200 "OK" "")).requests.map
      (fun r => r.body.system) = [get_status none] ∧
    (update cfg0 true (Except.ok info0) (Except.ok []) none "t0"
        (fun _ => AttemptEv.respond 200 "OK" "")).attempts = 1 ∧
    (update cfg0 true (Except.ok info0) (Except.ok []) none "t0"
        (fun _ => AttemptEv.respond 200 "OK" "")).raised = none := by
  refine ⟨rfl, ?_, ?_, rfl⟩ <;> decide

/-- Counterexample for C7: the claim says an absent Labels field yields an
empty labels mapping, but reading the Labels key of an info object that
lacks it raises KeyError, so no payload is assembled at all. -/
theorem c7_labels_absent_counterexample :
    assemblePayload "172.31.0.12" "2375"
      { Name := "node1", ID := "ab:cd:ef", Labels := none }
      (Except.ok []) none "t0" = Except.error (Exc.keyError "Labels") := rfl

/-- Claim C7 as amended: for every info whose Name is n and whose Labels
key is present and empty, and an empty workload list, the assembled
payload has id and name both equal to n, an empty containers sequence and
an empty labels mapping; when the Labels key is absent the assembly
raises KeyError instead and produces no payload. -/
theorem c7_payload_fields :
    ∀ (dh dp : String) (info : Info) (psutil : Option Psutil) (now : String),
      (info.Labels = some [] →
        assemblePayload dh dp info (Except.ok []) psutil now =
          Except.ok { time := now, id := info.Name, name := info.Name,
                      address := dh ++ ":" ++ dp, containers := [], labels := [],
                      system := get_status psutil }) ∧
      (info.Labels = none →
        assemblePayload dh dp info (Except.ok []) psutil now =
          Except.error (Exc.keyError "Labels")) := by
  intro dh dp info psutil now
  obtain ⟨nm, idv, lb⟩ := info
  constructor
  · intro h
    simp only at h
    subst h
    rfl
  · intro h
    simp only at h
    subst h
    rfl

/-- Witness for C7 at a concrete info object with empty Labels. -/
theorem c7_payload_fields_witness :
    assemblePayload "172.31.0.12" "2375" info0 (Except.ok []) none "t0" =
      Except.ok { time := "t0", id := "node1", name := "node1",
                  address := "172.31.0.12" ++ ":" ++ "2375", containers := [],
                  labels := [], system := get_status none } :=
  (c7_payload_fields "172.31.0.12" "2375" info0 none "t0").1 rfl

/-- Counterexample for C4: the claim says every registration request is a
PUT, but in the concrete successful run below the one request issued uses
method POST. -/
theorem c4_method_counterexample :
    (update cfg0 true (Except.ok info0) (Except.ok []) none "t0"
        (fun _ => AttemptEv.respond 200 "OK" "")).requests.map Request.method =
      ["POST"] ∧ ("POST" : String) ≠ "PUT" := by decide

/-- Claim C4 as amended: every registration request sent to the manager is
a POST (not a PUT) to /discovery/nodes/ followed by the id, with query
parameter ttl set to the configured seconds, a Content-Type
application/json header, the X-Auth-Node header present exactly when a
secret is configured, and the serialized payload as body. -/
theorem c4_request_shape :
    ∀ (cfg : MasterCfg) (conn0 : Bool) (info : Info)
      (contRes : Except Exc (List Container)) (psutil : Option Psutil)
      (now : String) (oracle : Nat → AttemptEv) (req : Request),
      req ∈ (update cfg conn0 (Except.ok info) contRes psutil now oracle).requests →
      req.method = "POST" ∧
      req.path = "/discovery/nodes/" ++ info.Name ++ "?ttl=" ++ toString cfg.timeout ∧
      req.headers.lookup "Content-Type" = some "application/json" ∧
      (∀ s, cfg.secret = some s → req.headers.lookup "X-Auth-Node" = some s) ∧
      (cfg.secret = none → req.headers.lookup "X-Auth-Node" = none) ∧
      ∃ pay, assemblePayload cfg.docker_host cfg.docker_port info contRes psutil now =
        Except.ok pay ∧ req.body = pay := by
  intro cfg conn0 info contRes psutil now oracle req hmem
  cases hassem : assemblePayload cfg.docker_host cfg.docker_port info contRes psutil now with
  | error e => simp [update, run_cycle, hassem] at hmem
  | ok pay =>
    rw [show (update cfg conn0 (Except.ok info) contRes psutil now oracle).requests =
        [(do_register cfg
            ("/discovery/nodes/" ++ info.Name ++ "?ttl=" ++ toString cfg.timeout)
            pay conn0 (oracle 0)).2.1] from by
      simp [update, run_cycle, hassem, show (3 : Nat) = Nat.succ 2 from rfl,
        retryLoop_succ_eq]] at hmem
    rw [do_register_req_eq] at hmem
    rw [List.mem_singleton] at hmem
    subst hmem
    refine ⟨rfl, rfl, ?_, ?_, ?_, ⟨pay, rfl, rfl⟩⟩
    · cases hs : cfg.secret <;> simp [mkHeaders, List.lookup]
    · intro s hs; simp [mkHeaders, hs, List.lookup]
    · intro hs; simp [mkHeaders, hs, List.lookup]

/-- Witness for C4: in the concrete cfg0 and info0 run the issued request
req0 is a POST carrying the X-Auth-Node header with the configured
secret, by the theorem. -/
theorem c4_request_shape_witness :
    req0 ∈ (update cfg0 true (Except.ok info0) (Except.ok []) none "t0"
      (fun _ => AttemptEv.respond 200 "OK" "")).requests ∧
    req0.method = "POST" ∧
    req0.headers.lookup "X-Auth-Node" = some "secr3t" := by
  have hmem : req0 ∈ (update cfg0 true (Except.ok info0) (Except.ok []) none "t0"
      (fun _ => AttemptEv.respond 200 "OK" "")).requests := by decide
  have h := c4_request_shape cfg0 true info0 (Except.ok []) none "t0"
    (fun _ => AttemptEv.respond 200 "OK" "") req0 hmem
  exact ⟨hmem, h.1, h.2.2.2.1 "secr3t" rfl⟩

/-- When the pre-send steps succeed, update reduces to the outcome of the
single do_register attempt the retry loop makes. -/
theorem update_ok_eq :
    ∀ (cfg : MasterCfg) (conn0 : Bool) (info : Info)
      (contRes : Except Exc (List Container)) (psutil : Option Psutil)
      (now : String) (oracle : Nat → AttemptEv) (pay : Payload),
      assemblePayload cfg.docker_host cfg.docker_port info contRes psutil now =
        Except.ok pay →
      update cfg conn0 (Except.ok info) contRes psutil now oracle =
        { conn := (do_register cfg
            ("/discovery/nodes/" ++ info.Name ++ "?ttl=" ++ toString cfg.timeout)
            pay conn0 (oracle 0)).1,
          requests := [(do_register cfg
            ("/discovery/nodes/" ++ info.Name ++ "?ttl=" ++ toString cfg.timeout)
            pay conn0 (oracle 0)).2.1],
          attempts := 1,
          logged := ((do_register cfg
            ("/discovery/nodes/" ++ info.Name ++ "?ttl=" ++ toString cfg.timeout)
            pay conn0 (oracle 0)).2.2).isSome,
          raised := none } := by
  intro cfg conn0 info contRes psutil now oracle pay hassem
  simp [update, run_cycle, hassem, show (3 : Nat) = Nat.succ 2 from rfl,
    retryLoop_succ_eq]

/-- Claim C3: every failure arising inside one registration cycle is
caught at the update boundary: update never raises, and whenever nothing
was logged, every pre-send step succeeded and the one send attempt
received a 200 response, so every failing cycle is a logged cycle. -/
theorem c3_update_never_raises :
    ∀ (cfg : MasterCfg) (conn0 : Bool) (infoRes : Except Exc Info)
      (contRes : Except Exc (List Container)) (psutil : Option Psutil)
      (now : String) (oracle : Nat → AttemptEv),
      (update cfg conn0 infoRes contRes psutil now oracle).raised = none ∧
      ((update cfg conn0 infoRes contRes psutil now oracle).logged = false →
        (∃ tup, run_cycle cfg conn0 infoRes contRes psutil now oracle =
          Except.ok tup) ∧
        ∃ reason rd, oracle 0 = AttemptEv.respond 200 reason rd) := by
  intro cfg conn0 infoRes contRes psutil now oracle
  refine ⟨?_, ?_⟩
  · simp only [update]
    cases hrc : run_cycle cfg conn0 infoRes contRes psutil now oracle with
    | error e => rfl
    | ok tup => obtain ⟨conn, reqs, n, lg⟩ := tup; rfl
  · intro hlg
    cases hinfo : infoRes with
    | error e =>
      rw [hinfo] at hlg
      rw [show update cfg conn0 (Except.error e) contRes psutil now oracle =
          { conn := conn0, requests := [], attempts := 0, logged := true,
            raised := none } from by simp [update, run_cycle]] at hlg
      simp at hlg
    | ok info =>
      rw [hinfo] at hlg
      cases hassem : assemblePayload cfg.docker_host cfg.docker_port info
          contRes psutil now with
      | error e =>
        rw [show update cfg conn0 (Except.ok info) contRes psutil now oracle =
            { conn := conn0, requests := [], attempts := 0, logged := true,
              raised := none } from by simp [update, run_cycle, hassem]] at hlg
        simp at hlg
      | ok pay =>
        rw [update_ok_eq cfg conn0 info contRes psutil now oracle pay hassem] at hlg
        have hnone : (do_register cfg
            ("/discovery/nodes/" ++ info.Name ++ "?ttl=" ++ toString cfg.timeout)
            pay conn0 (oracle 0)).2.2 = none := by
          cases hdo : (do_register cfg
              ("/discovery/nodes/" ++ info.Name ++ "?ttl=" ++ toString cfg.timeout)
              pay conn0 (oracle 0)).2.2 with
          | none => rfl
          | some e => simp [hdo] at hlg
        rw [do_register_ok_iff] at hnone
        have hok : run_cycle cfg conn0 (Except.ok info) contRes psutil now oracle =
            Except.ok (retryLoop cfg
              ("/discovery/nodes/" ++ info.Name ++ "?ttl=" ++ toString cfg.timeout)
              pay oracle 3 0 conn0 [] 0) := by
          simp [run_cycle, hassem]
        exact ⟨⟨_, hok⟩, hnone⟩

/-- Witness for C3 at a concrete successful run, by the theorem: update
raises nothing, and since nothing was logged the first attempt got a 200
response. -/
theorem c3_update_never_raises_witness :
    (update cfg0 true (Except.ok info0) (Except.ok []) none "t0"
      (fun _ => AttemptEv.respond 200 "OK" "")).raised = none ∧
    ∃ reason rd, (fun _ : Nat => AttemptEv.respond 200 "OK" "") 0 =
      AttemptEv.respond 200 reason rd :=
  have h := c3_update_never_raises cfg0 true (Except.ok info0) (Except.ok []) none
    "t0" (fun _ => AttemptEv.respond 200 "OK" "")
  ⟨h.1, (h.2 (by decide)).2⟩
